import Mathlib

/-!
Verification of the enum support of the sip module
(src/sipbuild/module/source/13/sip_enum.c) against its specification.

The C file is a thin layer over the CPython API.  We give a shallow
embedding: the static data (type descriptors, the flat member table) is
translated directly; the Python heap is modelled only as far as the code
inspects it (enum classes, enum members carrying a value attribute,
arbitrary other objects); every fallible host call is driven by an
explicit environment of success flags so that each error path of the C
code is a reachable branch of the Lean function.  Machine integers are
Int with explicit reduction modulo 2^32 where the C code converts
between signed and unsigned 32-bit quantities.
-/

set_option autoImplicit false

namespace SipEnum

/-- Tag stored in the etd_base_type field of a sipEnumTypeDef.  The four
flavors of the specification are ENUM (plain), UINT_ENUM (unsigned
plain), FLAG and INT_FLAG; INT_ENUM is the signed integer enum that the
dispatch in create_enum_object also handles. -/
inductive sipEnumBaseType where
  | SIP_ENUM_ENUM
  | SIP_ENUM_INT_ENUM
  | SIP_ENUM_UINT_ENUM
  | SIP_ENUM_FLAG
  | SIP_ENUM_INT_FLAG
  deriving DecidableEq, Repr

open sipEnumBaseType

/-- Embedding of the IS_UNSIGNED_ENUM macro (sip_enum.c line 29):
etd_base_type is SIP_ENUM_UINT_ENUM, SIP_ENUM_INT_FLAG or SIP_ENUM_FLAG. -/
def IS_UNSIGNED_ENUM (bt : sipEnumBaseType) : Bool :=
  bt == SIP_ENUM_UINT_ENUM || bt == SIP_ENUM_INT_FLAG || bt == SIP_ENUM_FLAG

/-- The four process-wide host base classes held by the module state
(enum.Enum, enum.IntEnum, enum.Flag, enum.IntFlag). -/
inductive HostBase where
  | enum_type
  | int_enum_type
  | flag_type
  | int_flag_type
  deriving DecidableEq, Repr

open HostBase

/-- Embedding of the enum_factory selection in create_enum_object
(lines 295-302): INT_FLAG maps to enum.IntFlag, FLAG to enum.Flag,
INT_ENUM and UINT_ENUM to enum.IntEnum, anything else to enum.Enum. -/
def enum_factory (bt : sipEnumBaseType) : HostBase :=
  if bt == SIP_ENUM_INT_FLAG then int_flag_type
  else if bt == SIP_ENUM_FLAG then flag_type
  else if bt == SIP_ENUM_INT_ENUM || bt == SIP_ENUM_UINT_ENUM then int_enum_type
  else enum_type

/-! ### 32-bit conversions

The C code works with int / unsigned int values; on the platforms sip
supports both are 32 bits wide and conversions wrap (two's complement). -/

/-- Reinterpretation of an integer as a 32-bit unsigned quantity: the C
cast (unsigned)v. -/
def toUnsigned32 (v : Int) : Int := v % 4294967296

/-- Reinterpretation of a 32-bit unsigned quantity as a signed int: the C
cast (int)u for u in [0, 2^32). -/
def toSigned32 (u : Int) : Int := if u < 2147483648 then u else u - 4294967296

/-- Range of the C int type. -/
def inIntRange (v : Int) : Prop := -2147483648 ≤ v ∧ v < 2147483648

instance (v : Int) : Decidable (inIntRange v) := by
  unfold inIntRange; infer_instance

/-! ### The value conversion layer

sip_api_convert_from_enum and sip_api_convert_to_enum act on a Python
enum class that create_enum_object built from a descriptor.  We record
of that class exactly what the two functions consult: an identity (two
generated enum classes are never subclasses of one another), its base
type tag, its Python name and its member mapping as it exists on the
Python side (names paired with the already sign-adjusted values). -/

/-- The facet of a materialized enum type that the conversion layer
reads.  pyMembers holds the Python-level values: create_enum_object
stores PyLong_FromUnsignedLong((unsigned)ii_val) for an unsigned flavor
and PyLong_FromLong(ii_val) otherwise (lines 250-253). -/
structure EnumTypeState where
  tid : Nat
  base_type : sipEnumBaseType
  py_name : String
  pyMembers : List (String × Int)
  deriving Repr

/-- A Python object as far as sip_api_convert_to_enum inspects it: an
instance of a generated enum type (carrying the value attribute and the
name of its type), or any other object (carrying its type name). -/
inductive PyObj where
  | enumMember (tid : Nat) (tname : String) (value : Int)
  | nonMember (tname : String)
  deriving DecidableEq, Repr

/-- Py_TYPE(obj)->tp_name as used by enum_expected. -/
def tpName : PyObj → String
  | PyObj.enumMember _ tname _ => tname
  | PyObj.nonMember tname => tname

/-- PyObject_IsInstance(obj, type_obj) for a generated enum type:
generated enum classes have members and therefore admit no subclasses,
so an object is an instance exactly when its class is that type. -/
def isInstanceOf (obj : PyObj) (et : EnumTypeState) : Bool :=
  match obj with
  | PyObj.enumMember tid _ _ => tid == et.tid
  | PyObj.nonMember _ => false

/-- Failures that the conversion layer can set as the Python exception. -/
inductive SipErr where
  /-- TypeError raised by enum_expected (lines 347-351), carrying the
  Python name of the expected enum and the type name of the object. -/
  | TypeMismatch (expected : String) (actual : String)
  /-- OverflowError from the integer conversion helpers. -/
  | OverflowErr
  /-- ValueError or similar from the host enum facility when no member
  matches a looked-up value. -/
  | HostValueErr
  /-- Failure of an auxiliary host call (attribute access etc.). -/
  | HostFailure
  deriving DecidableEq, Repr

/-- Modelled from the spec: sip_api_long_as_unsigned_int lives outside
src/ (sip_int_convertors.c); per the spec the unsigned path of
fromHostValue reads the integer attribute with unsigned interpretation,
so the helper converts a Python int that fits an unsigned 32-bit
quantity and fails with an overflow error otherwise. -/
def sip_api_long_as_unsigned_int (v : Int) : Except SipErr Int :=
  if 0 ≤ v ∧ v < 4294967296 then Except.ok v else Except.error SipErr.OverflowErr

/-- Modelled from the spec: sip_api_long_as_int lives outside src/
(sip_int_convertors.c); the signed path of fromHostValue reads the
integer attribute with signed interpretation, converting a Python int
that fits a signed 32-bit int and failing with an overflow error
otherwise. -/
def sip_api_long_as_int (v : Int) : Except SipErr Int :=
  if inIntRange v then Except.ok v else Except.error SipErr.OverflowErr

/-- Modelled from the spec: calling the materialized host enum class
with an integer value (host behavior, outside this core).  Per the spec
toHostValue "constructs/looks-up the member whose integer value equals
rawInt"; when some member carries that value the call yields that
member, and the no-match behavior is host-defined (modelled as a host
error). -/
def hostEnumCall (et : EnumTypeState) (v : Int) : Except SipErr PyObj :=
  if et.pyMembers.any (fun p => p.2 == v) then
    Except.ok (PyObj.enumMember et.tid et.py_name v)
  else
    Except.error SipErr.HostValueErr

/-- Embedding of sip_api_convert_from_enum (lines 53-63): resolve the
enum type and call it with the member value, using the format "(I)"
(the value reinterpreted as unsigned) for an unsigned flavor and "(i)"
(the value as-is) otherwise. -/
def sip_api_convert_from_enum (member : Int) (et : EnumTypeState) :
    Except SipErr PyObj :=
  hostEnumCall et
    (if IS_UNSIGNED_ENUM et.base_type then toUnsigned32 member else member)

/-- Embedding of sip_api_convert_to_enum (lines 70-100): check that obj
is an instance of the resolved enum type, raising the enum_expected
TypeError otherwise; read its value attribute; convert it with the
unsigned helper and cast the result to int for an unsigned flavor, and
with the signed helper otherwise. -/
def sip_api_convert_to_enum (obj : PyObj) (et : EnumTypeState) :
    Except SipErr Int :=
  if isInstanceOf obj et then
    match obj with
    | PyObj.enumMember _ _ v =>
        if IS_UNSIGNED_ENUM et.base_type then
          (sip_api_long_as_unsigned_int v).map toSigned32
        else
          sip_api_long_as_int v
    | PyObj.nonMember _ => Except.error SipErr.HostFailure
  else
    Except.error (SipErr.TypeMismatch et.py_name (tpName obj))

/-- The int actually returned by the C function: -1 with the exception
set on failure, the converted value on success. -/
def cRet : Except SipErr Int → Int
  | Except.error _ => -1
  | Except.ok v => v

/-! ### Enum object creation

create_enum_object (lines 229-341) consumes entries from the shared
member cursor, builds the member dict, calls the host factory and
publishes the result.  Every fallible host call is driven by a success
flag in a HostEnv so that each goto label of the C function is a
reachable branch. -/

/-- One entry of the flat member table (sipIntInstanceDef): a name
pointer (possibly NULL outside the entries belonging to enums) and a C
int value. -/
structure sipIntInstanceDef where
  ii_name : Option String
  ii_val : Int
  deriving DecidableEq, Repr

/-- The static part of a sipEnumTypeDef that create_enum_object reads:
the Python name, the base type tag, the declared member count, the
owning scope index (negative when unscoped) and whether a slot table is
present. -/
structure sipEnumTypeDef where
  etd_name : String
  etd_base_type : sipEnumBaseType
  etd_nr_members : Nat
  etd_scope : Int
  etd_pyslots : Bool
  deriving DecidableEq, Repr

/-- The materialized enum object as far as the claims consult it: its
name, the member mapping it was constructed with, and the host base
class used as the factory. -/
structure EnumObj where
  name : String
  members : List (String × Int)
  factory : HostBase
  deriving DecidableEq, Repr

/-- The mutable state threaded through a creation call: the shared
member cursor (an index into the flat table; the C code passes a
pointer) and the descriptor's cached-object slot td_py_type. -/
structure CreateState where
  cursor : Nat
  td_py_type : Option EnumObj
  deriving DecidableEq, Repr

/-- Success flags for every fallible host call of create_enum_object,
in source order. -/
structure HostEnv where
  dictNew_ok : Bool
  memberSet_ok : Nat → Bool
  tuplePack_ok : Bool
  kwDictNew_ok : Bool
  setModule_ok : Bool
  qualname_ok : Bool
  setQualname_ok : Bool
  capsuleNew_ok : Bool
  hostCall_ok : Bool
  setAttr_ok : Bool

/-- Error outcomes of create_enum_object (a NULL return with the Python
exception set), plus the vocabulary the specification uses. -/
inductive CreateErr where
  /-- The error the specification prescribes when the cursor has fewer
  remaining entries than the declared member count. -/
  | memberExhaustion
  /-- A host call before the factory invocation failed. -/
  | hostErr
  /-- PyObject_SetAttr of the back-reference capsule failed. -/
  | attachFailure
  deriving DecidableEq, Repr

/-- Outcome of create_enum_object: the object, a NULL return with an
exception set, or undefined behavior (the loop dereferenced the cursor
past the end of the table, or an entry whose name is NULL; in debug
builds the assert on line 247 aborts, in release builds the read is out
of bounds). -/
inductive CreateOutcome where
  | ok (obj : EnumObj)
  | err (e : CreateErr)
  | undef
  deriving DecidableEq, Repr

/-- The Python-level value stored for a member: create_enum_object uses
PyLong_FromUnsignedLong((unsigned)ii_val) for an unsigned flavor and
PyLong_FromLong(ii_val) otherwise (lines 250-253). -/
def pyValue (bt : sipEnumBaseType) (v : Int) : Int :=
  if IS_UNSIGNED_ENUM bt then toUnsigned32 v else v

/-- Result of the member-building loop of create_enum_object. -/
inductive LoopResult where
  | undef
  | setFailed
  | done (members : List (String × Int))
  deriving DecidableEq, Repr

/-- The loop of lines 243-259: for each of the declared members, read
the entry under the cursor (out of bounds or a NULL name is undefined
behavior, guarded only by asserts), compute its Python value and store
it in the members dict (sip_dict_set_and_discard may fail). -/
def buildMembers (bt : sipEnumBaseType) (table : List sipIntInstanceDef)
    (setOk : Nat → Bool) (pos i : Nat) : Nat → LoopResult
  | 0 => LoopResult.done []
  | n + 1 =>
    match table[pos]? with
    | none => LoopResult.undef
    | some e =>
      match e.ii_name with
      | none => LoopResult.undef
      | some nm =>
        if setOk i then
          match buildMembers bt table setOk (pos + 1) (i + 1) n with
          | LoopResult.done rest => LoopResult.done ((nm, pyValue bt e.ii_val) :: rest)
          | r => r
        else LoopResult.setFailed

/-- Embedding of create_enum_object (lines 229-341), in source order:
build the members dict (the cursor is written back only after the whole
loop succeeds, line 261); pack the args; build the kwargs with the
module name and, for a scoped enum, the qualified name; wrap the
descriptor in a capsule; pick the factory and call it; cache the result
in td_py_type (line 312); attach the capsule as the reserved attribute
(lines 314-319, discarding the object on failure); finally add any
extra slots. -/
def create_enum_object (env : HostEnv) (etd : sipEnumTypeDef)
    (table : List sipIntInstanceDef) (st : CreateState) :
    CreateState × CreateOutcome :=
  if !env.dictNew_ok then (st, CreateOutcome.err CreateErr.hostErr)
  else
    match buildMembers etd.etd_base_type table env.memberSet_ok st.cursor 0
        etd.etd_nr_members with
    | LoopResult.undef => (st, CreateOutcome.undef)
    | LoopResult.setFailed => (st, CreateOutcome.err CreateErr.hostErr)
    | LoopResult.done mems =>
      let st1 := { st with cursor := st.cursor + etd.etd_nr_members }
      if !env.tuplePack_ok then (st1, CreateOutcome.err CreateErr.hostErr)
      else if !env.kwDictNew_ok then (st1, CreateOutcome.err CreateErr.hostErr)
      else if !env.setModule_ok then (st1, CreateOutcome.err CreateErr.hostErr)
      else if 0 ≤ etd.etd_scope && !env.qualname_ok then
        (st1, CreateOutcome.err CreateErr.hostErr)
      else if 0 ≤ etd.etd_scope && !env.setQualname_ok then
        (st1, CreateOutcome.err CreateErr.hostErr)
      else if !env.capsuleNew_ok then (st1, CreateOutcome.err CreateErr.hostErr)
      else if !env.hostCall_ok then (st1, CreateOutcome.err CreateErr.hostErr)
      else
        let obj : EnumObj :=
          ⟨etd.etd_name, mems, enum_factory etd.etd_base_type⟩
        let st2 := { st1 with td_py_type := some obj }
        if !env.setAttr_ok then (st2, CreateOutcome.err CreateErr.attachFailure)
        else (st2, CreateOutcome.ok obj)

/-- Registration of the enums of a module in declaration order, each
call receiving the shared cursor (sip_enum_create is invoked once per
enum by the type-system code at module load).  Returns the final cursor
position when every creation succeeds. -/
def registerEnums (env : HostEnv) (etds : List sipEnumTypeDef)
    (table : List sipIntInstanceDef) (cursor : Nat) : Option Nat :=
  match etds with
  | [] => some cursor
  | etd :: rest =>
    match create_enum_object env etd table ⟨cursor, none⟩ with
    | (st, CreateOutcome.ok _) => registerEnums env rest table st.cursor
    | _ => none

/-! ### Initialization

sip_enum_init (lines 174-213) resolves the four host base classes and
interns four attribute names.  We track which Python references the
module state holds after the call: a field of Held is true exactly when
the corresponding global owns a reference. -/

/-- Success flags for each fallible step of sip_enum_init, in source
order. -/
structure InitEnv where
  import_ok : Bool
  enum_ok : Bool
  int_enum_ok : Bool
  flag_ok : Bool
  int_flag_ok : Bool
  objectify_sip_ok : Bool
  objectify_module_ok : Bool
  objectify_qualname_ok : Bool
  objectify_value_ok : Bool
  deriving DecidableEq, Repr

/-- Which references the process-wide enum state owns: the four base
classes and the four interned name objects. -/
structure Held where
  enum_ref : Bool
  int_enum_ref : Bool
  flag_ref : Bool
  int_flag_ref : Bool
  sip_str : Bool
  module_str : Bool
  qualname_str : Bool
  value_str : Bool
  deriving DecidableEq, Repr

/-- The state that owns no reference at all. -/
def noRefs : Held :=
  ⟨false, false, false, false, false, false, false, false⟩

/-- Embedding of sip_enum_init (lines 174-213): import the enum module;
fetch the four base classes (each successful fetch acquires a
reference); when any of the four is missing, Py_XDECREF releases all
four and the call fails; then intern the four attribute names in order,
returning -1 as soon as one fails — with no release of anything
acquired earlier. -/
def sip_enum_init (env : InitEnv) : Held × Int :=
  if !env.import_ok then (noRefs, -1)
  else
    let h0 : Held :=
      { noRefs with enum_ref := env.enum_ok, int_enum_ref := env.int_enum_ok,
                    flag_ref := env.flag_ok, int_flag_ref := env.int_flag_ok }
    if !(env.enum_ok && env.int_enum_ok && env.flag_ok && env.int_flag_ok) then
      (noRefs, -1)
    else if !env.objectify_sip_ok then (h0, -1)
    else
      let h1 := { h0 with sip_str := true }
      if !env.objectify_module_ok then (h1, -1)
      else
        let h2 := { h1 with module_str := true }
        if !env.objectify_qualname_ok then (h2, -1)
        else
          let h3 := { h2 with qualname_str := true }
          if !env.objectify_value_ok then (h3, -1)
          else ({ h3 with value_str := true }, 0)

/-! ### Flag classification

sip_api_is_enum_flag (lines 106-109) asks whether its argument is a
subclass of the process-wide enum.Flag class. -/

/-- Modelled from the spec: the ancestry of the four host base classes
(host library behavior, outside this core).  enum.IntEnum and enum.Flag
derive from enum.Enum; enum.IntFlag derives from enum.Flag. -/
def hostAncestors : HostBase → List HostBase
  | enum_type => [enum_type]
  | int_enum_type => [int_enum_type, enum_type]
  | flag_type => [flag_type, enum_type]
  | int_flag_type => [int_flag_type, flag_type, enum_type]

/-- The arguments sip_api_is_enum_flag can receive: one of the four
base classes themselves, an enum class generated from one of them, a
class unrelated to the enum facility, or a value that is not a class at
all (instances, enum members, ints, ...). -/
inductive FlagArg where
  | hostClass (b : HostBase)
  | generatedEnum (b : HostBase)
  | otherClass
  | instanceObj
  deriving DecidableEq, Repr

/-- The host base classes in an argument's method resolution order, or
none when the argument is not a class. -/
def argAncestors : FlagArg → Option (List HostBase)
  | FlagArg.hostClass b => some (hostAncestors b)
  | FlagArg.generatedEnum b => some (hostAncestors b)
  | FlagArg.otherClass => some []
  | FlagArg.instanceObj => none

/-- PyObject_IsSubclass(obj, flag_type): 1 when obj is a class whose
ancestry contains enum.Flag (inclusively), 0 for any other class, and
-1 with a TypeError set when obj is not a class. -/
def pyIsSubclassOfFlag (obj : FlagArg) : Int :=
  match argAncestors obj with
  | some l => if flag_type ∈ l then 1 else 0
  | none => -1

/-- Embedding of sip_api_is_enum_flag (lines 106-109): true exactly
when PyObject_IsSubclass(obj, flag_type) returns 1. -/
def sip_api_is_enum_flag (obj : FlagArg) : Bool :=
  pyIsSubclassOfFlag obj == 1

/-- The specification's notion for isFlagInstance: the argument is a
class and the flag base class is among its ancestors (non-strict). -/
def isSubtypeOfFlagBase (obj : FlagArg) : Prop :=
  ∃ l, argAncestors obj = some l ∧ flag_type ∈ l

instance (obj : FlagArg) : Decidable (isSubtypeOfFlagBase obj) := by
  unfold isSubtypeOfFlagBase
  rcases obj with b | b | _ | _ <;> simp [argAncestors] <;> infer_instance

/-- The member mapping create_enum_object builds for a run of table
entries (the names paired with the sign-adjusted values of lines
250-253); used to state the round-trip property. -/
def membersOfTable (bt : sipEnumBaseType) (entries : List (String × Int)) :
    List (String × Int) :=
  entries.map (fun p => (p.1, pyValue bt p.2))

/-! ### Arithmetic facts about the 32-bit conversions -/

theorem toUnsigned32_nonneg (v : Int) : 0 ≤ toUnsigned32 v :=
  Int.emod_nonneg v (by norm_num)

theorem toUnsigned32_lt (v : Int) : toUnsigned32 v < 4294967296 :=
  Int.emod_lt_of_pos v (by norm_num)

theorem toSigned32_toUnsigned32 (v : Int) (h : inIntRange v) :
    toSigned32 (toUnsigned32 v) = v := by
  rcases h with ⟨h1, h2⟩
  unfold toSigned32 toUnsigned32
  omega

/-! ### Theorems for the claims -/

/-- C5: the flavor classifier maps plain to the plain-enum base class,
unsigned-plain to the integer-enum base class, flag to the flag-enum
base class and unsigned-flag to the integer-flag-enum base class, and a
descriptor is unsigned exactly when its flavor is unsigned-plain, flag
or unsigned-flag. -/
theorem C5_flavor_classifier :
    enum_factory SIP_ENUM_ENUM = enum_type ∧
    enum_factory SIP_ENUM_UINT_ENUM = int_enum_type ∧
    enum_factory SIP_ENUM_FLAG = flag_type ∧
    enum_factory SIP_ENUM_INT_FLAG = int_flag_type ∧
    ∀ bt : sipEnumBaseType, IS_UNSIGNED_ENUM bt = true ↔
      (bt = SIP_ENUM_UINT_ENUM ∨ bt = SIP_ENUM_FLAG ∨ bt = SIP_ENUM_INT_FLAG) := by
  refine ⟨rfl, rfl, rfl, rfl, ?_⟩
  intro bt
  cases bt <;> simp [IS_UNSIGNED_ENUM]

/-- C9: sip_api_is_enum_flag returns true exactly when its argument is
a non-strict subtype of the flag base class; in particular it is true
for enum classes generated from the flag and integer-flag base classes,
and false for plain and integer enum classes, for unrelated classes and
for values that are not classes at all. -/
theorem C9_is_enum_flag :
    (∀ obj : FlagArg, sip_api_is_enum_flag obj = true ↔ isSubtypeOfFlagBase obj) ∧
    (∀ b : HostBase, sip_api_is_enum_flag (FlagArg.generatedEnum b) = true ↔
        (b = flag_type ∨ b = int_flag_type)) ∧
    sip_api_is_enum_flag FlagArg.otherClass = false ∧
    sip_api_is_enum_flag FlagArg.instanceObj = false := by
  refine ⟨?_, ?_, rfl, rfl⟩
  · intro obj
    rcases obj with b | b | _ | _ <;> first
      | (cases b <;> simp [sip_api_is_enum_flag, pyIsSubclassOfFlag, argAncestors,
          hostAncestors, isSubtypeOfFlagBase])
      | simp [sip_api_is_enum_flag, pyIsSubclassOfFlag, argAncestors,
          isSubtypeOfFlagBase]
  · intro b
    cases b <;> simp [sip_api_is_enum_flag, pyIsSubclassOfFlag, argAncestors,
      hostAncestors]

/-- The enum type used for the claim about the ambiguity of the -1
return: a signed plain enum with a member whose value is -1. -/
def C10et : EnumTypeState := ⟨0, SIP_ENUM_ENUM, "E", [("m", -1)]⟩

/-- C10: sip_api_convert_to_enum uses the int return value -1 both as
its error indicator and as a legitimate result: for a signed enum with
a member of value -1, converting that member succeeds and returns -1,
while a type-mismatched object also yields the return value -1 (with
the exception state set); the two cases return the same int. -/
theorem C10_minus_one_ambiguity :
    sip_api_convert_from_enum (-1) C10et =
      Except.ok (PyObj.enumMember 0 "E" (-1)) ∧
    sip_api_convert_to_enum (PyObj.enumMember 0 "E" (-1)) C10et =
      Except.ok (-1) ∧
    sip_api_convert_to_enum (PyObj.nonMember "str") C10et =
      Except.error (SipErr.TypeMismatch "E" "str") ∧
    cRet (sip_api_convert_to_enum (PyObj.enumMember 0 "E" (-1)) C10et) =
      cRet (sip_api_convert_to_enum (PyObj.nonMember "str") C10et) := by
  refine ⟨?_, ?_, ?_, ?_⟩ <;> rfl

/-- The unsigned-flag enum type for the sign-interpretation claim: its
member's table value -1 is stored on the Python side as the unsigned
32-bit quantity 4294967295. -/
def C4et : EnumTypeState := ⟨1, SIP_ENUM_INT_FLAG, "F", [("ALL", 4294967295)]⟩

/-- C4 counterexample: for the unsigned-flag member whose value has the
bit pattern of -1, sip_api_convert_to_enum returns the C int -1, which
is negative and is not the unsigned magnitude 4294967295; the claim
that it reports 4294967295 fails. -/
theorem C4_counterexample :
    sip_api_convert_to_enum (PyObj.enumMember 1 "F" 4294967295) C4et =
      Except.ok (-1) ∧
    cRet (sip_api_convert_to_enum (PyObj.enumMember 1 "F" 4294967295) C4et) < 0 ∧
    cRet (sip_api_convert_to_enum (PyObj.enumMember 1 "F" 4294967295) C4et) ≠
      4294967295 := by
  refine ⟨rfl, by decide, by decide⟩

/-- C4 amended: for an unsigned enum member whose Python value is the
unsigned reinterpretation of -1 (4294967295), the conversion succeeds
without an overflow error, but the returned C int is the signed
reinterpretation -1; only its 32-bit bit pattern equals 4294967295. -/
theorem C4_amended (et : EnumTypeState) (tid : Nat) (tname : String)
    (hU : IS_UNSIGNED_ENUM et.base_type = true) (htid : tid = et.tid) :
    sip_api_convert_to_enum (PyObj.enumMember tid tname (toUnsigned32 (-1))) et =
      Except.ok (-1) ∧
    toUnsigned32 (-1) = 4294967295 := by
  subst htid
  have h1 : toUnsigned32 (-1) = 4294967295 := by decide
  refine ⟨?_, h1⟩
  rw [h1]
  norm_num [sip_api_convert_to_enum, isInstanceOf, hU,
    sip_api_long_as_unsigned_int, toSigned32, Except.map]

/-- C4 amended witness: the amended statement evaluated on the concrete
unsigned-flag type C4et. -/
theorem C4_amended_witness :
    sip_api_convert_to_enum (PyObj.enumMember 1 "F" (toUnsigned32 (-1))) C4et =
      Except.ok (-1) ∧
    toUnsigned32 (-1) = 4294967295 :=
  C4_amended C4et 1 "F" (by decide) (by decide)

/-- C6: for every object that is not an instance of the enum type of
the descriptor, sip_api_convert_to_enum fails with the enum_expected
TypeError carrying the Python name of the expected enum and the type
name of the object, and never returns a coerced integer. -/
theorem C6_type_mismatch (obj : PyObj) (et : EnumTypeState)
    (h : isInstanceOf obj et = false) :
    sip_api_convert_to_enum obj et =
      Except.error (SipErr.TypeMismatch et.py_name (tpName obj)) := by
  simp [sip_api_convert_to_enum, h]

/-- C6 witness: a member of enum type 5 named A converted against the
descriptor of enum type 0 named E fails with the TypeError naming E as
expected and A as actual. -/
theorem C6_witness :
    isInstanceOf (PyObj.enumMember 5 "A" 0) C10et = false ∧
    sip_api_convert_to_enum (PyObj.enumMember 5 "A" 0) C10et =
      Except.error (SipErr.TypeMismatch "E" "A") :=
  ⟨by decide, C6_type_mismatch (PyObj.enumMember 5 "A" 0) C10et (by decide)⟩

/-- C1: round-trip.  For an enum type built from table entries (C int
values) and any member value v of that type, converting v to the host
enum object with sip_api_convert_from_enum and back with
sip_api_convert_to_enum yields v again, for every flavor. -/
theorem C1_round_trip (bt : sipEnumBaseType) (tid : Nat) (nm : String)
    (entries : List (String × Int)) (v : Int)
    (hrange : ∀ p ∈ entries, inIntRange p.2)
    (hmem : ∃ p ∈ entries, p.2 = v) :
    (sip_api_convert_from_enum v ⟨tid, bt, nm, membersOfTable bt entries⟩).bind
      (fun obj =>
        sip_api_convert_to_enum obj ⟨tid, bt, nm, membersOfTable bt entries⟩) =
      Except.ok v := by
  obtain ⟨p, hp, hpv⟩ := hmem
  have hv : inIntRange v := hpv ▸ hrange p hp
  have hany : ∀ u : Int, pyValue bt p.2 = u →
      (membersOfTable bt entries).any (fun q => q.2 == u) = true := by
    intro u hu
    refine List.any_eq_true.mpr ?_
    exact ⟨(p.1, pyValue bt p.2), List.mem_map.mpr ⟨p, hp, rfl⟩, by simp [hu]⟩
  by_cases hU : IS_UNSIGNED_ENUM bt = true
  · have h1 := hany (toUnsigned32 v) (by simp [pyValue, hU, hpv])
    simp only [sip_api_convert_from_enum, hostEnumCall, hU, if_true, h1,
      Except.bind]
    have h2 : 0 ≤ toUnsigned32 v ∧ toUnsigned32 v < 4294967296 :=
      ⟨toUnsigned32_nonneg v, toUnsigned32_lt v⟩
    simp [sip_api_convert_to_enum, isInstanceOf, hU,
      sip_api_long_as_unsigned_int, h2, Except.map, toSigned32_toUnsigned32 v hv]
  · have hU' : IS_UNSIGNED_ENUM bt = false := by
      cases h : IS_UNSIGNED_ENUM bt
      · rfl
      · exact absurd h hU
    have h1 := hany v (by simp [pyValue, hU', hpv])
    simp only [sip_api_convert_from_enum, hostEnumCall, hU', if_false,
      Bool.false_eq_true, h1, Except.bind]
    simp [sip_api_convert_to_enum, isInstanceOf, hU', sip_api_long_as_int, hv]

/-- C1 witness: the round trip evaluated on a concrete unsigned flag
enum with a member of value -1 (stored as 4294967295 on the host side). -/
theorem C1_witness :
    (∀ p ∈ [("ALL", (-1 : Int))], inIntRange p.2) ∧
    (∃ p ∈ [("ALL", (-1 : Int))], p.2 = -1) ∧
    (sip_api_convert_from_enum (-1)
        ⟨1, SIP_ENUM_INT_FLAG, "F", membersOfTable SIP_ENUM_INT_FLAG [("ALL", -1)]⟩).bind
      (fun obj => sip_api_convert_to_enum obj
        ⟨1, SIP_ENUM_INT_FLAG, "F", membersOfTable SIP_ENUM_INT_FLAG [("ALL", -1)]⟩) =
      Except.ok (-1) :=
  ⟨by decide, by decide,
    C1_round_trip SIP_ENUM_INT_FLAG 1 "F" [("ALL", -1)] (-1) (by decide)
      ⟨("ALL", -1), by decide, rfl⟩⟩

/-- Host environment in which every host call succeeds. -/
def envAllOk : HostEnv :=
  ⟨true, fun _ => true, true, true, true, true, true, true, true, true⟩

/-- Host environment in which only the back-reference attachment
(PyObject_SetAttr of the reserved attribute) fails. -/
def envAttachFails : HostEnv :=
  ⟨true, fun _ => true, true, true, true, true, true, true, true, false⟩

/-- A plain unscoped enum descriptor with one member. -/
def etdE : sipEnumTypeDef := ⟨"E", SIP_ENUM_ENUM, 1, -1, false⟩

/-- A one-entry member table. -/
def tableE : List sipIntInstanceDef := [⟨some "m", 0⟩]

/-- C2 counterexample: when the back-reference attachment fails, the
creation fails, yet the descriptor's slot td_py_type is left pointing
at the discarded object — the claim that the slot is written only after
attachment succeeds fails on this input. -/
theorem C2_counterexample :
    (create_enum_object envAttachFails etdE tableE ⟨0, none⟩).2 =
      CreateOutcome.err CreateErr.attachFailure ∧
    (create_enum_object envAttachFails etdE tableE ⟨0, none⟩).1.td_py_type =
      some ⟨"E", [("m", 0)], enum_type⟩ :=
  ⟨rfl, rfl⟩

/-- C2 amended: the newly constructed object is cached into the
descriptor's slot as soon as the host factory call succeeds, before the
back-reference attachment; when the attachment fails the creation
returns an error and the object is discarded, but the slot is left
pointing at the discarded object. -/
theorem C2_amended (env : HostEnv) (etd : sipEnumTypeDef)
    (table : List sipIntInstanceDef) (st : CreateState)
    (mems : List (String × Int))
    (hd : env.dictNew_ok = true)
    (hb : buildMembers etd.etd_base_type table env.memberSet_ok st.cursor 0
        etd.etd_nr_members = LoopResult.done mems)
    (ht : env.tuplePack_ok = true) (hk : env.kwDictNew_ok = true)
    (hm : env.setModule_ok = true) (hq : env.qualname_ok = true)
    (hsq : env.setQualname_ok = true) (hc : env.capsuleNew_ok = true)
    (hcall : env.hostCall_ok = true) (ha : env.setAttr_ok = false) :
    create_enum_object env etd table st =
      ({ cursor := st.cursor + etd.etd_nr_members,
         td_py_type := some ⟨etd.etd_name, mems, enum_factory etd.etd_base_type⟩ },
       CreateOutcome.err CreateErr.attachFailure) := by
  simp [create_enum_object, hd, hb, ht, hk, hm, hq, hsq, hc, hcall, ha]

/-- C2 amended witness: the amended statement evaluated on the concrete
one-member enum with a failing attachment. -/
theorem C2_amended_witness :
    create_enum_object envAttachFails etdE tableE ⟨0, none⟩ =
      ({ cursor := 0 + etdE.etd_nr_members,
         td_py_type := some ⟨etdE.etd_name, [("m", 0)],
           enum_factory etdE.etd_base_type⟩ },
       CreateOutcome.err CreateErr.attachFailure) :=
  C2_amended envAttachFails etdE tableE ⟨0, none⟩ [("m", 0)]
    rfl rfl rfl rfl rfl rfl rfl rfl rfl rfl

/-- Initialization environment in which the interning of the reserved
attribute name fails after all four base classes resolved. -/
def envObjectifyFails : InitEnv :=
  ⟨true, true, true, true, true, false, true, true, true⟩

/-- C8 counterexample: when the first name-interning step fails after
the four base classes were acquired, sip_enum_init fails but the four
base-class references are retained — the claim that a failed
initialization retains no partial process-wide state fails on this
input. -/
theorem C8_counterexample :
    (sip_enum_init envObjectifyFails).2 = -1 ∧
    (sip_enum_init envObjectifyFails).1 ≠ noRefs ∧
    (sip_enum_init envObjectifyFails).1.enum_ref = true ∧
    (sip_enum_init envObjectifyFails).1.int_enum_ref = true ∧
    (sip_enum_init envObjectifyFails).1.flag_ref = true ∧
    (sip_enum_init envObjectifyFails).1.int_flag_ref = true := by
  decide

/-- C8 amended: when any of the four base classes cannot be resolved,
sip_enum_init releases all partially-acquired base-class references and
fails holding no reference; but when a later name-interning step fails,
the four base-class references (and any previously interned names) are
retained despite the failure. -/
theorem C8_amended (env : InitEnv) :
    (env.import_ok = true →
      (env.enum_ok = false ∨ env.int_enum_ok = false ∨
        env.flag_ok = false ∨ env.int_flag_ok = false) →
      sip_enum_init env = (noRefs, -1)) ∧
    (env.import_ok = true → env.enum_ok = true → env.int_enum_ok = true →
      env.flag_ok = true → env.int_flag_ok = true →
      (env.objectify_sip_ok = false ∨ env.objectify_module_ok = false ∨
        env.objectify_qualname_ok = false ∨ env.objectify_value_ok = false) →
      (sip_enum_init env).2 = -1 ∧
        (sip_enum_init env).1.enum_ref = true ∧
        (sip_enum_init env).1.int_enum_ref = true ∧
        (sip_enum_init env).1.flag_ref = true ∧
        (sip_enum_init env).1.int_flag_ref = true) := by
  obtain ⟨i, e1, e2, e3, e4, o1, o2, o3, o4⟩ := env
  constructor
  · rintro rfl h
    cases e1 <;> cases e2 <;> cases e3 <;> cases e4 <;>
      first
        | rfl
        | (rcases h with h | h | h | h <;> simp at h)
  · rintro rfl rfl rfl rfl rfl h
    cases o1 <;> cases o2 <;> cases o3 <;> cases o4 <;>
      first
        | exact ⟨rfl, rfl, rfl, rfl, rfl⟩
        | (rcases h with h | h | h | h <;> simp at h)

/-- C8 amended witness: both parts of the amended statement evaluated
on concrete environments (a missing flag base class, and a failing
first interning step). -/
theorem C8_amended_witness :
    sip_enum_init ⟨true, true, true, false, true, true, true, true, true⟩ =
      (noRefs, -1) ∧
    ((sip_enum_init envObjectifyFails).2 = -1 ∧
      (sip_enum_init envObjectifyFails).1.enum_ref = true ∧
      (sip_enum_init envObjectifyFails).1.int_enum_ref = true ∧
      (sip_enum_init envObjectifyFails).1.flag_ref = true ∧
      (sip_enum_init envObjectifyFails).1.int_flag_ref = true) :=
  ⟨(C8_amended ⟨true, true, true, false, true, true, true, true, true⟩).1 rfl
      (Or.inr (Or.inr (Or.inl rfl))),
    (C8_amended envObjectifyFails).2 rfl rfl rfl rfl rfl (Or.inl rfl)⟩

/-- When the member loop completes, the members it built are exactly
the mapped contiguous run of the table starting at the cursor. -/
theorem buildMembers_done_spec (bt : sipEnumBaseType)
    (table : List sipIntInstanceDef) (setOk : Nat → Bool) :
    ∀ (n pos i : Nat) (mems : List (String × Int)),
      buildMembers bt table setOk pos i n = LoopResult.done mems →
      mems = ((table.drop pos).take n).map
        (fun e => (e.ii_name.getD "", pyValue bt e.ii_val)) := by
  intro n
  induction n with
  | zero =>
    intro pos i mems h
    simp only [buildMembers, LoopResult.done.injEq] at h
    simp [← h]
  | succ m ih =>
    intro pos i mems h
    rcases hget : table[pos]? with _ | e
    · simp [buildMembers, hget] at h
    · rcases hname : e.ii_name with _ | nm
      · simp [buildMembers, hget, hname] at h
      · rcases hok : setOk i with _ | _
        · simp [buildMembers, hget, hname, hok] at h
        · rcases hrec : buildMembers bt table setOk (pos + 1) (i + 1) m with
            _ | _ | rest
          · simp [buildMembers, hget, hname, hok, hrec] at h
          · simp [buildMembers, hget, hname, hok, hrec] at h
          · simp only [buildMembers, hget, hname, hok, hrec, if_true,
              LoopResult.done.injEq] at h
            obtain ⟨hlt, hE⟩ := List.getElem?_eq_some_iff.mp hget
            have hdrop : table.drop pos = table[pos] :: table.drop (pos + 1) :=
              List.drop_eq_getElem_cons hlt
            rw [← h, ih (pos + 1) (i + 1) rest hrec, hdrop, List.take_succ_cons,
              List.map_cons, hE, hname]
            rfl

/-- When the cursor has fewer remaining entries than the loop must
consume, the loop dereferences the cursor past the end of the table
(undefined behavior; the debug assert aborts), provided every entry it
reaches carries a name and the dict stores succeed. -/
theorem buildMembers_past_end (bt : sipEnumBaseType)
    (table : List sipIntInstanceDef) (setOk : Nat → Bool)
    (hset : ∀ j, setOk j = true) :
    ∀ (n pos i : Nat), table.length - pos < n →
      buildMembers bt table setOk pos i n = LoopResult.undef := by
  intro n
  induction n with
  | zero => intro pos i h; omega
  | succ m ih =>
    intro pos i h
    rcases hget : table[pos]? with _ | e
    · simp [buildMembers, hget]
    · obtain ⟨hlt, _⟩ := List.getElem?_eq_some_iff.mp hget
      rcases hname : e.ii_name with _ | nm
      · simp [buildMembers, hget, hname]
      · have hrec := ih (pos + 1) (i + 1) (by omega)
        simp [buildMembers, hget, hname, hset i, hrec]

/-- C3 counterexample: with an exhausted member table (no remaining
entries for a one-member descriptor) and every host call succeeding,
create_enum_object does not surface a MemberExhaustion error; it runs
into undefined behavior (an out-of-bounds read, an assert abort in
debug builds). -/
theorem C3_counterexample :
    (create_enum_object envAllOk etdE [] ⟨0, none⟩).2 = CreateOutcome.undef ∧
    (create_enum_object envAllOk etdE [] ⟨0, none⟩).2 ≠
      CreateOutcome.err CreateErr.memberExhaustion := by
  refine ⟨rfl, ?_⟩
  intro h
  rw [show (create_enum_object envAllOk etdE [] ⟨0, none⟩).2 =
    CreateOutcome.undef from rfl] at h
  exact CreateOutcome.noConfusion h

/-- C3 amended: create_enum_object performs no exhaustion check — no
input makes it surface a MemberExhaustion error; when the cursor has
fewer remaining entries than the declared member count (and the host
calls themselves do not fail first) the loop reads past the table,
which is undefined behavior in release builds and an assert abort in
debug builds, not an error surfaced to the caller. -/
theorem C3_amended :
    (∀ (env : HostEnv) (etd : sipEnumTypeDef)
        (table : List sipIntInstanceDef) (st : CreateState),
      (create_enum_object env etd table st).2 ≠
        CreateOutcome.err CreateErr.memberExhaustion) ∧
    (∀ (env : HostEnv) (etd : sipEnumTypeDef)
        (table : List sipIntInstanceDef) (st : CreateState),
      env.dictNew_ok = true → (∀ j, env.memberSet_ok j = true) →
      table.length - st.cursor < etd.etd_nr_members →
      (create_enum_object env etd table st).2 = CreateOutcome.undef) := by
  constructor
  · intro env etd table st
    unfold create_enum_object
    (repeat' split) <;> simp
  · intro env etd table st hd hset hshort
    have hb := buildMembers_past_end etd.etd_base_type table env.memberSet_ok
      hset etd.etd_nr_members st.cursor 0 hshort
    simp [create_enum_object, hd, hb]

/-- C3 amended witness: both parts evaluated at the concrete exhausted
input (one declared member, empty table, all host calls succeeding). -/
theorem C3_amended_witness :
    (create_enum_object envAllOk etdE [] ⟨0, none⟩).2 ≠
      CreateOutcome.err CreateErr.memberExhaustion ∧
    (create_enum_object envAllOk etdE [] ⟨0, none⟩).2 = CreateOutcome.undef :=
  ⟨C3_amended.1 envAllOk etdE [] ⟨0, none⟩,
    C3_amended.2 envAllOk etdE [] ⟨0, none⟩ rfl (fun _ => rfl) (by decide)⟩

/-- Helper for C7: a successful creation advances the cursor by exactly
the declared member count, caches the object and builds its members
from the contiguous run of the table under the cursor. -/
theorem create_enum_object_ok (env : HostEnv) (etd : sipEnumTypeDef)
    (table : List sipIntInstanceDef) (st st' : CreateState) (obj : EnumObj)
    (h : create_enum_object env etd table st = (st', CreateOutcome.ok obj)) :
    st'.cursor = st.cursor + etd.etd_nr_members ∧
    st'.td_py_type = some obj ∧
    obj.members = ((table.drop st.cursor).take etd.etd_nr_members).map
      (fun e => (e.ii_name.getD "", pyValue etd.etd_base_type e.ii_val)) := by
  unfold create_enum_object at h
  split at h
  · exact absurd (congrArg Prod.snd h) (by simp)
  · split at h
    · exact absurd (congrArg Prod.snd h) (by simp)
    · exact absurd (congrArg Prod.snd h) (by simp)
    · rename_i mems hb
      split at h
      · exact absurd (congrArg Prod.snd h) (by simp)
      · split at h
        · exact absurd (congrArg Prod.snd h) (by simp)
        · split at h
          · exact absurd (congrArg Prod.snd h) (by simp)
          · split at h
            · exact absurd (congrArg Prod.snd h) (by simp)
            · split at h
              · exact absurd (congrArg Prod.snd h) (by simp)
              · split at h
                · exact absurd (congrArg Prod.snd h) (by simp)
                · split at h
                  · exact absurd (congrArg Prod.snd h) (by simp)
                  · split at h
                    · exact absurd (congrArg Prod.snd h) (by simp)
                    · simp only [Prod.mk.injEq, CreateOutcome.ok.injEq] at h
                      obtain ⟨hst, hobj⟩ := h
                      subst hst
                      subst hobj
                      exact ⟨rfl, rfl,
                        buildMembers_done_spec etd.etd_base_type table
                          env.memberSet_ok etd.etd_nr_members st.cursor 0 mems hb⟩

/-- Helper for C7: when every creation of a module succeeds, the final
cursor position is the initial one plus the sum of the declared member
counts, in declaration order. -/
theorem registerEnums_final (env : HostEnv) :
    ∀ (etds : List sipEnumTypeDef) (table : List sipIntInstanceDef)
      (c final : Nat),
      registerEnums env etds table c = some final →
      final = c + (etds.map sipEnumTypeDef.etd_nr_members).sum := by
  intro etds
  induction etds with
  | nil =>
    intro table c final h
    simp only [registerEnums, Option.some.injEq] at h
    simp [← h]
  | cons etd rest ih =>
    intro table c final h
    rcases hc : create_enum_object env etd table ⟨c, none⟩ with ⟨st, out⟩
    rcases out with obj | e | _
    · rw [registerEnums, hc] at h
      have hadv : st.cursor = c + etd.etd_nr_members :=
        (create_enum_object_ok env etd table ⟨c, none⟩ st obj hc).1
      have := ih table st.cursor final h
      simp only [List.map_cons, List.sum_cons]
      omega
    · rw [registerEnums, hc] at h
      exact Option.noConfusion h
    · rw [registerEnums, hc] at h
      exact Option.noConfusion h

/-- C7: a successful creation consumes exactly the declared number of
entries from the shared cursor — its members are the contiguous run of
the table under the cursor and the cursor advances in place by exactly
that count — and when all enums of a module register in declaration
order over a table whose length is the sum of the declared counts, the
final cursor position equals the table length. -/
theorem C7_cursor_exactness :
    (∀ (env : HostEnv) (etd : sipEnumTypeDef)
        (table : List sipIntInstanceDef) (st st' : CreateState) (obj : EnumObj),
      create_enum_object env etd table st = (st', CreateOutcome.ok obj) →
      st'.cursor = st.cursor + etd.etd_nr_members ∧
      obj.members = ((table.drop st.cursor).take etd.etd_nr_members).map
        (fun e => (e.ii_name.getD "", pyValue etd.etd_base_type e.ii_val))) ∧
    (∀ (env : HostEnv) (etds : List sipEnumTypeDef)
        (table : List sipIntInstanceDef) (final : Nat),
      registerEnums env etds table 0 = some final →
      (etds.map sipEnumTypeDef.etd_nr_members).sum = table.length →
      final = table.length) := by
  constructor
  · intro env etd table st st' obj h
    have := create_enum_object_ok env etd table st st' obj h
    exact ⟨this.1, this.2.2⟩
  · intro env etds table final h hsum
    have := registerEnums_final env etds table 0 final h
    omega

/-- C7 witness: both parts evaluated on a concrete one-enum module with
a one-entry table. -/
theorem C7_witness :
    ((⟨1, some ⟨"E", [("m", 0)], enum_type⟩⟩ : CreateState).cursor =
        (⟨0, none⟩ : CreateState).cursor + etdE.etd_nr_members ∧
      (⟨"E", [("m", 0)], enum_type⟩ : EnumObj).members =
        ((tableE.drop (⟨0, none⟩ : CreateState).cursor).take
            etdE.etd_nr_members).map
          (fun e => (e.ii_name.getD "", pyValue etdE.etd_base_type e.ii_val))) ∧
    (1 : Nat) = tableE.length :=
  ⟨C7_cursor_exactness.1 envAllOk etdE tableE ⟨0, none⟩
      ⟨1, some ⟨"E", [("m", 0)], enum_type⟩⟩ ⟨"E", [("m", 0)], enum_type⟩ rfl,
    C7_cursor_exactness.2 envAllOk [etdE] tableE 1 rfl rfl⟩

end SipEnum
